import Mathlib

/-!
Verification of the module-enablement discovery and presentation core of
`src/prefs/EffectsPrefs.cpp` (the Audacity "Effects" preferences panel):
a shallow embedding of `GetModuleData`, the `SuggestedPrompts` table,
`PopulateOrExchange`, `Populate` and `Commit`, with theorems about
discovery, labeling, ordering, caching, form construction and commit.
-/

namespace EffectsPrefs

/-- A plugin of kind module, as seen through the registry interface the code
uses: `plug->GetEffectFamily()`, `plug->GetSymbol().Msgid()`, and
`pm.GetPluginEnabledSetting(*plug)` (an opaque string computed by the
registry). -/
structure Module where
  effectFamily : String
  symbolMsgid : String
  enabledSetting : String
deriving DecidableEq, Repr

/-- The curated prompt table `SuggestedPrompts` from EffectsPrefs.cpp
(lines 80-108), mapping known family identifiers to display labels. -/
def SuggestedPrompts : List (String × String) :=
  [ ("AudioUnit", "Audio Unit"),
    ("LADSPA",    "&LADSPA"),
    ("LV2",       "LV&2"),
    ("Nyquist",   "N&yquist"),
    ("Vamp",      "&Vamp"),
    ("VST",       "V&ST") ]

/-- Lookup `SuggestedPrompts.find( internal )`: the lookup of a family identifier in the
curated table. -/
def suggestedLookup (family : String) : Option String :=
  (SuggestedPrompts.find? (fun p => p.1 == family)).map Prod.snd

/-- The `Entry` struct of EffectsPrefs.cpp (lines 111-114): an untranslated
prompt and a persisted-settings path. -/
structure Entry where
  prompt : String
  setting : String
deriving DecidableEq, Repr

/-- The body of the discovery loop for one module with non-empty family
(lines 127-142): prompt from the curated table when the family is a key,
otherwise the module's own `GetSymbol().Msgid()`; setting from the registry. -/
def entryOf (m : Module) : Entry :=
  { prompt :=
      match suggestedLookup m.effectFamily with
      | none => m.symbolMsgid
      | some p => p,
    setting := m.enabledSetting }

/-- The discovery loop of `ModuleData::ModuleData()` (lines 120-143): iterate
the modules, skip those with empty `GetEffectFamily()` (`continue`), push an
entry for each of the rest. -/
def collectEntries : List Module → List Entry
  | [] => []
  | m :: rest =>
      if m.effectFamily = "" then collectEntries rest
      else entryOf m :: collectEntries rest

/-- Lexicographic order on strings as sequences of characters, modelling
`wxString::operator<` used by the sort comparator. -/
def strLE (a b : String) : Prop := a.data ≤ b.data

instance : DecidableRel strLE := fun a b => by
  unfold strLE; infer_instance

/-- The comparator of the `std::sort` call (lines 145-149) compares entries
by `setting` alone; sortedness with respect to it means nondecreasing
setting keys. -/
def entryLE (a b : Entry) : Prop := strLE a.setting b.setting

instance : DecidableRel entryLE := fun a b => by
  unfold entryLE; infer_instance

instance : IsTotal Entry entryLE := ⟨fun a b => le_total a.setting.data b.setting.data⟩

instance : IsTrans Entry entryLE := ⟨fun _ _ _ h h' => le_trans h h'⟩

/-- Function `GetModuleData` (lines 115-154), minus the caching (modelled separately
by `getModuleDataCached`): collect one entry per module with a non-empty
family identifier, then sort by setting key.  `std::sort`'s tie order among
equal keys is unspecified; the model fixes insertion sort, which (like
libstdc++'s small-range insertion sort) keeps the discovery order of
entries whose keys compare equal. -/
def GetModuleData (mods : List Module) : List Entry :=
  List.insertionSort entryLE (collectEntries mods)

/-- The lazy static cache of `GetModuleData` (lines 152-153):
`static ModuleData theData; return theData;`.  The process-wide state is the
optional cached list; a call computes the list from the registry's modules
only when the cache is still empty, stores it, and every call returns the
cached value. -/
def getModuleDataCached (mods : List Module) :
    Option (List Entry) → List Entry × Option (List Entry)
  | some v => (v, some v)
  | none => (GetModuleData mods, some (GetModuleData mods))

/-- Build-time configuration of `PopulateOrExchange`: the `__WXGTK__`
platform test (line 205) and the two experimental feature flags
(lines 216, 229). -/
structure BuildFlags where
  wxGTK : Bool
  experimentalEffectManagement : Bool
  experimentalEqSseThreaded : Bool
deriving DecidableEq, Repr

/-- One request issued to the ShuttleGui settings-form builder during
`PopulateOrExchange`: section brackets and the three kinds of tied
controls used by this panel (checkbox, choice, numeric text box). -/
inductive Item where
  | startStatic (label : String)
  | endStatic
  | checkBox (prompt setting : String) (dflt : Bool)
  | tieChoiceCtrl (prompt setting dflt : String) (labels codes : List String)
  | numericTextBox (prompt setting : String) (dflt : Int) (digits : Nat)
deriving DecidableEq, Repr

/-- The `visualgroups` label array (lines 180-186), untranslated. -/
def visualGroups : List String :=
  [ "Sorted by Effect Name",
    "Sorted by Publisher and Effect Name",
    "Sorted by Type and Effect Name",
    "Grouped by Publisher",
    "Grouped by Type" ]

/-- The `prefsgroups` internal-code array (lines 188-194). -/
def prefsGroups : List String :=
  [ "sortby:name",
    "sortby:publisher:name",
    "sortby:type:name",
    "groupby:publisher",
    "groupby:type" ]

/-- Method `EffectsPrefs::PopulateOrExchange` (lines 158-239) as the sequence of
builder requests it issues, in source order: the "Enable Effects" static
box with one `TieCheckBox(prompt, setting, true)` per discovered entry;
the "Effect Options" box with the sort/group `TieChoice` and the
`TieNumericTextBox` for `/Effects/MaxPerGroup` (default 15 under
`__WXGTK__`, otherwise 0, width 5); the "Plugin Options" box unless
`EXPERIMENTAL_EFFECT_MANAGEMENT` is defined; and the "Instruction Set" box
when `EXPERIMENTAL_EQ_SSE_THREADED` is defined. -/
def PopulateOrExchange (mods : List Module) (f : BuildFlags) : List Item :=
  [Item.startStatic "Enable Effects"]
  ++ (GetModuleData mods).map (fun e => Item.checkBox e.prompt e.setting true)
  ++ [Item.endStatic,
      Item.startStatic "Effect Options",
      Item.tieChoiceCtrl "S&ort or Group:" "/Effects/GroupBy" "sortby:name"
        visualGroups prefsGroups,
      Item.numericTextBox "&Maximum effects per group (0 to disable):"
        "/Effects/MaxPerGroup" (if f.wxGTK then 15 else 0) 5,
      Item.endStatic]
  ++ (if f.experimentalEffectManagement then []
      else
        [Item.startStatic "Plugin Options",
         Item.checkBox "Check for updated plugins when Audacity starts"
           "/Plugins/CheckForUpdates" true,
         Item.checkBox "Rescan plugins next time Audacity is started"
           "/Plugins/Rescan" false,
         Item.endStatic])
  ++ (if f.experimentalEqSseThreaded then
        [Item.startStatic "Instruction Set",
         Item.checkBox "&Use SSE/SSE2/.../AVX" "/SSE/GUI" true,
         Item.endStatic]
      else [])

/-- The settings key a builder request is tied to, when it is a tied
control (section brackets touch no settings). -/
def tieKey : Item → Option String
  | Item.checkBox _ setting _ => some setting
  | Item.tieChoiceCtrl _ setting _ _ _ => some setting
  | Item.numericTextBox _ setting _ _ => some setting
  | _ => none

/-- The settings keys touched by a traversal of the form, in order. -/
def tieKeys : List Item → List String
  | [] => []
  | it :: t =>
      match tieKey it with
      | some k => k :: tieKeys t
      | none => tieKeys t

/-- A value in the persisted settings store (wxConfig via gPrefs). -/
inductive PrefValue where
  | boolVal (v : Bool)
  | stringVal (v : String)
  | intVal (v : Int)
deriving DecidableEq, Repr

/-- The persisted settings store: a partial map from key to value. -/
def Prefs : Type := String → Option PrefValue

/-- Writing one key in the settings store. -/
def setPref (p : Prefs) (k : String) (v : PrefValue) : Prefs :=
  fun k' => if k' = k then some v else p k'

/-- A ShuttleGui pass in `eIsSavingToPrefs` mode over the issued requests:
each tied control writes its current UI value to its settings key (`ui` maps
a control, identified by its settings key, to its current value). -/
def shuttleSave (ui : String → PrefValue) (items : List Item) (p : Prefs) :
    Prefs :=
  items.foldl
    (fun acc it =>
      match tieKey it with
      | some k => setPref acc k (ui k)
      | none => acc)
    p

/-- Method `EffectsPrefs::Populate` (lines 58-67) runs `PopulateOrExchange` with a
shuttle in `eIsCreatingFromPrefs` mode, which reads every tied key from the
settings store: these are the keys read when the panel opens. -/
def populateReadKeys (mods : List Module) (f : BuildFlags) : List String :=
  tieKeys (PopulateOrExchange mods f)

/-- Method `EffectsPrefs::Commit` (lines 241-247): run `PopulateOrExchange` with a
shuttle in `eIsSavingToPrefs` mode (writing every tied control's value to
its key), then `return true`. -/
def Commit (mods : List Module) (f : BuildFlags) (ui : String → PrefValue)
    (p : Prefs) : Prefs × Bool :=
  (shuttleSave ui (PopulateOrExchange mods f) p, true)

/-- Test for the `StartStatic` request carrying the given label. -/
def isStartStatic (label : String) : Item → Bool
  | Item.startStatic l => l == label
  | _ => false

/-- Test for the `EndStatic` request. -/
def isEndStatic : Item → Bool
  | Item.endStatic => true
  | _ => false

/-- The controls requested inside the static box with the given label:
everything after its `StartStatic` up to the matching `EndStatic` (the
panel nests no static boxes). -/
def sectionOf (label : String) (items : List Item) : List Item :=
  ((items.dropWhile (fun it => !(isStartStatic label it))).drop 1).takeWhile
    (fun it => !(isEndStatic it))

/-! ## Helper lemmas -/

/-- The discovery loop produces exactly the entries of the modules whose
family identifier is non-empty, in discovery order. -/
theorem collectEntries_eq (mods : List Module) :
    collectEntries mods
      = (mods.filter (fun m => !(m.effectFamily == ""))).map entryOf := by
  induction mods with
  | nil => rfl
  | cons m rest ih =>
      by_cases h : m.effectFamily = "" <;>
        simp [collectEntries, h, List.filter_cons, ih]

/-- The discovered list is a permutation of one entry per module with a
non-empty family identifier. -/
theorem getModuleData_perm (mods : List Module) :
    (GetModuleData mods).Perm
      ((mods.filter (fun m => !(m.effectFamily == ""))).map entryOf) := by
  rw [GetModuleData, collectEntries_eq]
  exact List.perm_insertionSort entryLE _

/-- The discovered list is sorted by setting key. -/
theorem getModuleData_sorted (mods : List Module) :
    List.Sorted entryLE (GetModuleData mods) :=
  List.sorted_insertionSort entryLE (collectEntries mods)

/-- Strings with equal character data are equal. -/
theorem string_data_inj {a b : String} (h : a.data = b.data) : a = b :=
  congrArg String.mk h

/-- Two sorted permutations of each other with no duplicate setting keys
are equal; `entryLE` is antisymmetric up to setting keys only, so the
no-duplicate hypothesis is what forces equality of the lists. -/
theorem eq_of_perm_of_sorted_entry :
    ∀ {l₁ l₂ : List Entry}, l₁.Perm l₂ → List.Sorted entryLE l₁ →
      List.Sorted entryLE l₂ → (l₂.map Entry.setting).Nodup → l₁ = l₂
  | [], l₂, hp, _, _, _ => hp.nil_eq
  | a :: t, l₂, hp, hs₁, hs₂, hn => by
      have ha : a ∈ l₂ := hp.subset (List.mem_cons_self a t)
      obtain ⟨u, v, rfl⟩ := List.append_of_mem ha
      cases u with
      | nil =>
          simp only [List.nil_append] at hp hs₂ hn ⊢
          have hp' := (List.perm_cons a).1 hp
          have ht := eq_of_perm_of_sorted_entry hp'
            ((List.sorted_cons.1 hs₁).2) ((List.sorted_cons.1 hs₂).2)
            ((List.nodup_cons.1 (by simpa using hn)).2)
          rw [ht]
      | cons b u' =>
          exfalso
          rw [List.cons_append] at hp hs₂ hn
          have hb1 : entryLE b a :=
            (List.sorted_cons.1 hs₂).1 a (by simp)
          have hbmem : b ∈ a :: t := hp.symm.subset (by simp)
          have hb2 : entryLE a b := by
            rcases List.mem_cons.1 hbmem with h | h
            · exact h ▸ le_refl _
            · exact (List.sorted_cons.1 hs₁).1 b h
          have hset : b.setting = a.setting :=
            string_data_inj (le_antisymm hb1 hb2)
          rw [List.map_cons, List.nodup_cons] at hn
          exact hn.1 (by simp [hset])

/-- The length of the discovered list counts the modules whose family
identifier is non-empty. -/
theorem getModuleData_length (mods : List Module) :
    (GetModuleData mods).length
      = (mods.map (fun m => m.effectFamily == "")).count false := by
  rw [(getModuleData_perm mods).length_eq, List.length_map]
  induction mods with
  | nil => rfl
  | cons m rest ih =>
      by_cases h : m.effectFamily = "" <;>
        simp [List.filter_cons, h, List.count_cons, ih]

/-- A key tied by no request of a save pass keeps its stored value. -/
theorem shuttleSave_frame (ui : String → PrefValue) :
    ∀ (items : List Item) (p : Prefs) (k : String),
      k ∉ tieKeys items → shuttleSave ui items p k = p k
  | [], _, _, _ => by rfl
  | it :: t, p, k, hk => by
      have step : shuttleSave ui (it :: t) p
          = shuttleSave ui t
              (match tieKey it with
               | some k' => setPref p k' (ui k')
               | none => p) := rfl
      rw [step]
      cases hik : tieKey it with
      | none =>
          rw [tieKeys, hik] at hk
          simp only [hik]
          exact shuttleSave_frame ui t p k hk
      | some k' =>
          rw [tieKeys, hik] at hk
          simp only [hik]
          have hkk' : k ≠ k' := fun he => hk (by simp [he])
          have hkt : k ∉ tieKeys t := fun h => hk (List.mem_cons_of_mem _ h)
          rw [shuttleSave_frame ui t _ k hkt]
          simp [setPref, hkk']

/-- A key tied by some request of a save pass ends holding the value of
its control. -/
theorem shuttleSave_mem (ui : String → PrefValue) :
    ∀ (items : List Item) (p : Prefs) (k : String),
      k ∈ tieKeys items → shuttleSave ui items p k = some (ui k)
  | [], _, _, hk => by rw [tieKeys] at hk; exact absurd hk (List.not_mem_nil _)
  | it :: t, p, k, hk => by
      have step : shuttleSave ui (it :: t) p
          = shuttleSave ui t
              (match tieKey it with
               | some k' => setPref p k' (ui k')
               | none => p) := rfl
      rw [step]
      by_cases ht : k ∈ tieKeys t
      · cases hik : tieKey it with
        | none => simp only [hik]; exact shuttleSave_mem ui t _ k ht
        | some k' => simp only [hik]; exact shuttleSave_mem ui t _ k ht
      · cases hik : tieKey it with
        | none =>
            rw [tieKeys, hik] at hk
            exact absurd hk ht
        | some k' =>
            rw [tieKeys, hik] at hk
            rcases List.mem_cons.1 hk with h | h
            · subst h
              simp only [hik]
              rw [shuttleSave_frame ui t _ k ht]
              simp [setPref]
            · exact absurd h ht

/-- Taking up to the first `EndStatic` from the checkbox block followed by
the closing bracket of the "Enable Effects" box yields exactly the
checkbox block. -/
theorem takeWhile_checkBoxes (l : List Entry) (rest : List Item) :
    ((l.map (fun e => Item.checkBox e.prompt e.setting true))
        ++ Item.endStatic :: rest).takeWhile (fun it => !(isEndStatic it))
      = l.map (fun e => Item.checkBox e.prompt e.setting true) := by
  induction l with
  | nil => simp [List.takeWhile_cons, isEndStatic]
  | cons e t ih => simp [List.takeWhile_cons, isEndStatic, ih]

/-! ## The claims -/

/-- C1: for every set of installed plugins of kind module, `GetModuleData`
returns exactly one entry for each module whose effect-family identifier is
non-empty (the output is a permutation of one entry per such module) and no
entry for a module whose identifier is empty; when the set is empty the
result is the empty sequence. -/
theorem effectsPrefs_C1 (mods : List Module) :
    (GetModuleData mods).Perm
      ((mods.filter (fun m => !(m.effectFamily == ""))).map entryOf)
    ∧ GetModuleData [] = [] :=
  ⟨getModuleData_perm mods, rfl⟩

/-- C2, counterexample to the claim as stated: two iteration orders of the
same two modules, both with setting key "k" but different prompts, yield
different output sequences, because the sort comparator looks at the
setting key only. -/
theorem effectsPrefs_C2_counterexample :
    (([⟨"FamA", "PA", "k"⟩, ⟨"FamB", "PB", "k"⟩] : List Module)).Perm
        [⟨"FamB", "PB", "k"⟩, ⟨"FamA", "PA", "k"⟩]
    ∧ GetModuleData [⟨"FamA", "PA", "k"⟩, ⟨"FamB", "PB", "k"⟩]
        ≠ GetModuleData [⟨"FamB", "PB", "k"⟩, ⟨"FamA", "PA", "k"⟩] :=
  ⟨List.Perm.swap _ _ _, by decide⟩

/-- C2 (amended): the output of `GetModuleData` is always sorted ascending
by setting key, and reordering the input leaves the output unchanged
provided the produced entries carry pairwise distinct setting keys; among
entries with equal setting keys the relative order may depend on the input
order. -/
theorem effectsPrefs_C2 (mods : List Module) :
    List.Sorted entryLE (GetModuleData mods)
    ∧ ∀ mods' : List Module, mods.Perm mods' →
        ((GetModuleData mods).map Entry.setting).Nodup →
        GetModuleData mods = GetModuleData mods' := by
  refine ⟨getModuleData_sorted mods, fun mods' hp hn => ?_⟩
  have hperm : (GetModuleData mods).Perm (GetModuleData mods') :=
    (getModuleData_perm mods).trans
      (((hp.filter _).map entryOf).trans (getModuleData_perm mods').symm)
  exact eq_of_perm_of_sorted_entry hperm (getModuleData_sorted mods)
    (getModuleData_sorted mods')
    (((hperm.map Entry.setting).nodup_iff).1 hn)

/-- C2, witness: the three-module scenario of the spec, reordered, gives a
sorted and unchanged output. -/
theorem effectsPrefs_C2_witness :
    List.Sorted entryLE (GetModuleData
      [⟨"LADSPA", "LADSPA Effects", "/Plugins/Enable/LADSPA"⟩,
       ⟨"MyCo", "MyCo", "/Plugins/Enable/AAA"⟩,
       ⟨"VST", "VST Effects", "/Plugins/Enable/VST"⟩])
    ∧ GetModuleData
        [⟨"LADSPA", "LADSPA Effects", "/Plugins/Enable/LADSPA"⟩,
         ⟨"MyCo", "MyCo", "/Plugins/Enable/AAA"⟩,
         ⟨"VST", "VST Effects", "/Plugins/Enable/VST"⟩]
      = GetModuleData
        [⟨"VST", "VST Effects", "/Plugins/Enable/VST"⟩,
         ⟨"MyCo", "MyCo", "/Plugins/Enable/AAA"⟩,
         ⟨"LADSPA", "LADSPA Effects", "/Plugins/Enable/LADSPA"⟩] := by
  have h := effectsPrefs_C2
    [⟨"LADSPA", "LADSPA Effects", "/Plugins/Enable/LADSPA"⟩,
     ⟨"MyCo", "MyCo", "/Plugins/Enable/AAA"⟩,
     ⟨"VST", "VST Effects", "/Plugins/Enable/VST"⟩]
  exact ⟨h.1, h.2 _ (by decide) (by decide)⟩

/-- C3: every module with a non-empty family identifier contributes an
entry whose prompt is the curated label when the identifier is a key of
`SuggestedPrompts`, and the module's own `GetSymbol().Msgid()` when it is
not. -/
theorem effectsPrefs_C3 (mods : List Module) (m : Module) (hm : m ∈ mods)
    (hfam : ¬ m.effectFamily = "") :
    entryOf m ∈ GetModuleData mods
    ∧ (entryOf m).setting = m.enabledSetting
    ∧ (∀ p, suggestedLookup m.effectFamily = some p → (entryOf m).prompt = p)
    ∧ (suggestedLookup m.effectFamily = none →
        (entryOf m).prompt = m.symbolMsgid) := by
  refine ⟨?_, rfl, ?_, ?_⟩
  · rw [GetModuleData, List.mem_insertionSort, collectEntries_eq]
    exact List.mem_map_of_mem entryOf (List.mem_filter.2 ⟨hm, by simp [hfam]⟩)
  · intro p hp; simp [entryOf, hp]
  · intro hp; simp [entryOf, hp]

/-- C3, witness: a curated family gets its curated prompt and an unknown
family gets its generic label, in the same two-module registry. -/
theorem effectsPrefs_C3_witness :
    (⟨"&LADSPA", "/Plugins/Enable/LADSPA"⟩ : Entry)
        ∈ GetModuleData
          [⟨"LADSPA", "LADSPA Effects", "/Plugins/Enable/LADSPA"⟩,
           ⟨"MyCo", "MyCo", "/Plugins/Enable/AAA"⟩]
    ∧ (⟨"MyCo", "/Plugins/Enable/AAA"⟩ : Entry)
        ∈ GetModuleData
          [⟨"LADSPA", "LADSPA Effects", "/Plugins/Enable/LADSPA"⟩,
           ⟨"MyCo", "MyCo", "/Plugins/Enable/AAA"⟩] := by
  have h1 := effectsPrefs_C3
    [⟨"LADSPA", "LADSPA Effects", "/Plugins/Enable/LADSPA"⟩,
     ⟨"MyCo", "MyCo", "/Plugins/Enable/AAA"⟩]
    ⟨"LADSPA", "LADSPA Effects", "/Plugins/Enable/LADSPA"⟩
    (by decide) (by decide)
  have h2 := effectsPrefs_C3
    [⟨"LADSPA", "LADSPA Effects", "/Plugins/Enable/LADSPA"⟩,
     ⟨"MyCo", "MyCo", "/Plugins/Enable/AAA"⟩]
    ⟨"MyCo", "MyCo", "/Plugins/Enable/AAA"⟩
    (by decide) (by decide)
  have e1 : entryOf ⟨"LADSPA", "LADSPA Effects", "/Plugins/Enable/LADSPA"⟩
      = (⟨"&LADSPA", "/Plugins/Enable/LADSPA"⟩ : Entry) := by decide
  have e2 : entryOf ⟨"MyCo", "MyCo", "/Plugins/Enable/AAA"⟩
      = (⟨"MyCo", "/Plugins/Enable/AAA"⟩ : Entry) := by decide
  exact ⟨e1 ▸ h1.1, e2 ▸ h2.1⟩

/-- C4: with the lazy static cache modelled as explicit state, the first
call computes `GetModuleData` and stores it, and any later call within the
process returns the identical sequence and leaves the cache unchanged,
even if the registry contents changed in between. -/
theorem effectsPrefs_C4 (mods mods' : List Module) :
    (getModuleDataCached mods none).1 = GetModuleData mods
    ∧ (getModuleDataCached mods' (getModuleDataCached mods none).2).1
        = (getModuleDataCached mods none).1
    ∧ (getModuleDataCached mods' (getModuleDataCached mods none).2).2
        = (getModuleDataCached mods none).2 :=
  ⟨rfl, rfl, rfl⟩

/-- C5: entries are never deduplicated: for every setting key, the number
of output entries carrying that key equals the number of discovered
modules with non-empty family whose enabled-setting is that key. -/
theorem effectsPrefs_C5 (mods : List Module) (key : String) :
    (GetModuleData mods).countP (fun e => e.setting == key)
      = (mods.filter (fun m => !(m.effectFamily == ""))).countP
          (fun m => m.enabledSetting == key) := by
  rw [(getModuleData_perm mods).countP_eq, List.countP_map]
  rfl

/-- C6: the "Enable Effects" static box contains exactly one checkbox per
entry of `GetModuleData`, in the same order, tied to the entry's setting
key with default true. -/
theorem effectsPrefs_C6 (mods : List Module) (f : BuildFlags) :
    sectionOf "Enable Effects" (PopulateOrExchange mods f)
      = (GetModuleData mods).map
          (fun e => Item.checkBox e.prompt e.setting true) := by
  rw [PopulateOrExchange, sectionOf]
  simp only [List.cons_append, List.singleton_append, List.append_assoc]
  rw [List.dropWhile_cons]
  simp only [isStartStatic, beq_self_eq_true, Bool.not_true, Bool.false_eq_true,
    if_false, List.drop_succ_cons, List.drop_zero]
  exact takeWhile_checkBoxes _ _

/-- C7: the Effect Options box offers the sort/group choice with exactly
the five labels mapped to the five internal codes and default
"sortby:name", and the bounded numeric field for
`/Effects/MaxPerGroup` with default 15 under `__WXGTK__` and 0 otherwise,
width 5. -/
theorem effectsPrefs_C7 (mods : List Module) (f : BuildFlags) :
    Item.tieChoiceCtrl "S&ort or Group:" "/Effects/GroupBy" "sortby:name"
        visualGroups prefsGroups ∈ PopulateOrExchange mods f
    ∧ Item.numericTextBox "&Maximum effects per group (0 to disable):"
        "/Effects/MaxPerGroup" (if f.wxGTK then 15 else 0) 5
        ∈ PopulateOrExchange mods f
    ∧ visualGroups.length = 5
    ∧ prefsGroups
        = ["sortby:name", "sortby:publisher:name", "sortby:type:name",
           "groupby:publisher", "groupby:type"] := by
  refine ⟨?_, ?_, rfl, rfl⟩ <;> simp [PopulateOrExchange]

/-- C8: `Commit` reports success for every panel state: it runs the save
pass and returns true unconditionally. -/
theorem effectsPrefs_C8 (mods : List Module) (f : BuildFlags)
    (ui : String → PrefValue) (p : Prefs) :
    (Commit mods f ui p).2 = true :=
  rfl

/-- C9: whether a module contributes an entry depends only on the
emptiness pattern of the effect-family identifiers: two registries whose
modules agree on which family identifiers are empty yield outputs of the
same length, whatever the display names, setting keys or curated-table
membership. -/
theorem effectsPrefs_C9 (mods₁ mods₂ : List Module)
    (h : mods₁.map (fun m => m.effectFamily == "")
         = mods₂.map (fun m => m.effectFamily == "")) :
    (GetModuleData mods₁).length = (GetModuleData mods₂).length := by
  rw [getModuleData_length, getModuleData_length, h]

/-- C9, witness: a module with an empty display name but non-empty family
still yields exactly one entry, as does a curated module with a different
name and key. -/
theorem effectsPrefs_C9_witness :
    (GetModuleData [⟨"FamX", "", "/k1"⟩]).length
      = (GetModuleData [⟨"LADSPA", "Sym", "/k2"⟩]).length
    ∧ (GetModuleData [⟨"FamX", "", "/k1"⟩]).length = 1 :=
  ⟨effectsPrefs_C9 _ _ (by decide), by decide⟩

/-- C10: load and commit traverse the same form-construction routine, so
the keys read on open are exactly the tied keys of that routine; commit
writes its control value to every such key and leaves every other key of
the settings store untouched. -/
theorem effectsPrefs_C10 (mods : List Module) (f : BuildFlags)
    (ui : String → PrefValue) (p : Prefs) :
    populateReadKeys mods f = tieKeys (PopulateOrExchange mods f)
    ∧ (∀ k, k ∈ populateReadKeys mods f →
        (Commit mods f ui p).1 k = some (ui k))
    ∧ (∀ k, k ∉ populateReadKeys mods f →
        (Commit mods f ui p).1 k = p k) :=
  ⟨rfl,
   fun k hk => shuttleSave_mem ui _ p k hk,
   fun k hk => shuttleSave_frame ui _ p k hk⟩

/-- C10, witness: with an empty registry and no experimental features,
commit writes the tied key `/Effects/GroupBy` and leaves an unrelated key
untouched. -/
theorem effectsPrefs_C10_witness :
    (Commit [] ⟨false, false, false⟩ (fun _ => PrefValue.boolVal true)
        (fun _ => none)).1 "/Effects/GroupBy"
      = some (PrefValue.boolVal true)
    ∧ (Commit [] ⟨false, false, false⟩ (fun _ => PrefValue.boolVal true)
        (fun _ => none)).1 "/Other/Key" = none := by
  have h := effectsPrefs_C10 [] ⟨false, false, false⟩
      (fun _ => PrefValue.boolVal true) (fun _ => none)
  exact ⟨h.2.1 "/Effects/GroupBy" (by decide), h.2.2 "/Other/Key" (by decide)⟩

end EffectsPrefs
